import Mathlib

/-!
Verification of the Scribe/Shipwright pipeline library against its
specification.  The Go sources are shallowly embedded: pure functions become
Lean functions, effectful code (logging, docker operations, goroutine
scheduling) is made explicit as traces, outcome parameters and result values.
Where a component of the repository is absent from the available sources
(the `Collection`/`Graph` append logic, `Collection.BySerial`, the
`syncutil` pipeline wait group, `plumbing.DefaultImage`), the definition is
modelled from the specification text and marked as such in its doc comment.

The file is organised as definitions first, then the theorems about them.
-/

namespace Scribe

/-! ## Data model (spec section 3; Go `pipeline.Step`) -/

/-- `pipeline.StepType`: Default, Background or SubPipeline. -/
inductive StepType where
  | default
  | background
  | subPipeline
deriving DecidableEq

/-- Go `pipeline.Step[T]`: serial, name, image, type and an optional content
(the action for step graphs, the pipeline for pipeline graphs).  The Go field
`Type` is spelled `Type'` because `Type` is reserved in Lean. -/
structure Step (α : Type) where
  Serial : Nat
  Name : String
  Image : String
  Type' : StepType
  Content : Option α
deriving DecidableEq

/-- Modelled from the spec: the step-graph of one pipeline.  Nodes are steps
keyed by serial, edges are directed pairs of serials, and `attach` is the
"edge attachment set" of spec section 9 (the frontier from which the next
append extends), kept separately from the topological leaves so that
background steps can be excluded from it. -/
structure StepGraph (α : Type) where
  nodes : List (Step α)
  edges : List (Nat × Nat)
  attach : List Nat
deriving DecidableEq

/-- Modelled from the spec: a fresh step-graph holds only the synthetic root
node with serial 0, and the attachment set starts at the root. -/
def emptyStepGraph (α : Type) : StepGraph α :=
  { nodes := [{ Serial := 0, Name := "", Image := "", Type' := .default, Content := none }]
    edges := []
    attach := [0] }

/-- Modelled from the spec: `Collection.Append`.  A batch of k new nodes is
added; a background step becomes a detached branch with the single edge
root(0) → step and is excluded from the attachment set; every non-background
step receives an edge from each member of the current attachment set, and the
non-background steps of the batch become the new attachment set.  An empty
append is a no-op. -/
def appendSteps {α : Type} (g : StepGraph α) (steps : List (Step α)) : StepGraph α :=
  if steps.isEmpty then g
  else
    let bg := steps.filter (fun s => decide (s.Type' = StepType.background))
    let normal := steps.filter (fun s => decide (¬ s.Type' = StepType.background))
    { nodes := g.nodes ++ steps
      edges := g.edges ++ bg.map (fun s => ((0 : Nat), s.Serial))
                ++ (normal.map (fun s => g.attach.map (fun l => (l, s.Serial)))).flatten
      attach := if normal.isEmpty then g.attach else normal.map (·.Serial) }

/-! ## Authoring facade (src/unnamed/part_002, package shipwright) -/

/-- Modelled from the spec: `plumbing.DefaultImage` returns a library-provided
image reference keyed by the library version. -/
def DefaultImage (version : String) : String :=
  "grafana/scribe:" ++ version

/-- The outcome of a per-step validator: `skip` models an error matching
`plumbing.ErrorSkipValidation` (warn but accept), `msg` a hard error. -/
inductive ValError where
  | skip
  | msg (e : String)
deriving DecidableEq

/-- `docker.Client.Validate`: rejects a step whose image is empty with
"no image provided". -/
def dockerValidate {α : Type} (s : Step α) : Option ValError :=
  if s.Image = "" then some (.msg "no image provided") else none

/-- `shipwright.formatError`: prefixes a validation error with the step name
(defaulting to `unnamed-step-<serial>`) and the serial. -/
def formatError {α : Type} (s : Step α) (e : String) : String :=
  "[name: " ++ (if s.Name = "" then "unnamed-step-" ++ toString s.Serial else s.Name)
    ++ ", id: " ++ toString s.Serial ++ "] " ++ e

/-- `Shipwright.validateSteps`: runs the client validator over the steps in
order; a nil result or a skip-validation error lets the step through (the
skip case is logged as a warning), the first hard error is returned wrapped
by `formatError`. -/
def validateSteps {α : Type} (V : Step α → Option ValError) : List (Step α) → Option String
  | [] => none
  | s :: rest =>
    match V s with
    | none => validateSteps V rest
    | some .skip => validateSteps V rest
    | some (.msg e) => some (formatError s e)

/-- `Shipwright.Setup` for one step: apply the default image when the step
provides none and assign the serial. -/
def setupStep {α : Type} (version : String) (n : Nat) (s : Step α) : Step α :=
  { s with
    Image := if s.Image = "" then DefaultImage version else s.Image
    Serial := n }

/-- `Shipwright.Setup`: serials are assigned monotonically from the client
counter `n`, one per step. -/
def setupSteps {α : Type} (version : String) : Nat → List (Step α) → List (Step α)
  | _, [] => []
  | n, s :: rest => setupStep version n s :: setupSteps version (n + 1) rest

/-- The `Shipwright` client state relevant to graph construction: the target
pipeline's step-graph, the step counter `n` and the library version. -/
structure Shipwright (α : Type) where
  graph : StepGraph α
  n : Nat
  version : String
deriving DecidableEq

/-- `Shipwright.Run`: set up the steps, validate them, then append each step
of the batch INDIVIDUALLY (one `Collection.Append` call per step inside the
loop), which chains them sequentially.  A validation failure calls
`Log.Fatalln`, modelled as `none`. -/
def Run {α : Type} (V : Step α → Option ValError) (sw : Shipwright α)
    (ss : List (Step α)) : Option (Shipwright α) :=
  let steps := setupSteps sw.version sw.n ss
  match validateSteps V steps with
  | some _ => none
  | none =>
    some { graph := steps.foldl (fun g s => appendSteps g [s]) sw.graph
           n := sw.n + ss.length
           version := sw.version }

/-- `Shipwright.Parallel`: set up, validate, then append the whole batch in a
single `Collection.Append` call (parallel fan-out). -/
def Parallel {α : Type} (V : Step α → Option ValError) (sw : Shipwright α)
    (ss : List (Step α)) : Option (Shipwright α) :=
  let steps := setupSteps sw.version sw.n ss
  match validateSteps V steps with
  | some _ => none
  | none =>
    some { graph := appendSteps sw.graph steps
           n := sw.n + ss.length
           version := sw.version }

/-- The loop body of `Shipwright.Background`: set the step's type to
`StepTypeBackground`. -/
def backgroundOf {α : Type} (s : Step α) : Step α :=
  { s with Type' := .background }

/-- `Shipwright.Background`: set up, validate, then set every step's type to
`StepTypeBackground` and append the batch in a single call; the append treats
the background steps as detached branches. -/
def Background {α : Type} (V : Step α → Option ValError) (sw : Shipwright α)
    (ss : List (Step α)) : Option (Shipwright α) :=
  let steps := setupSteps sw.version sw.n ss
  match validateSteps V steps with
  | some _ => none
  | none =>
    some { graph := appendSteps sw.graph (steps.map backgroundOf)
           n := sw.n + ss.length
           version := sw.version }

/-- Steps used by the concrete C1 witness. -/
def wStep (name : String) : Step Unit :=
  { Serial := 0, Name := name, Image := "alpine", Type' := .default, Content := none }

/-- A validator used by the C5 witness: step serial 0 is skip-validated,
everything else goes through the docker image check. -/
def wValidator (t : Step Unit) : Option ValError :=
  if t.Serial = 0 then some .skip else dockerValidate t

/-- A skip-validated step for the C5 witness. -/
def wSkip : Step Unit :=
  { Serial := 0, Name := "skipped", Image := "alpine", Type' := .default, Content := none }

/-- An unnamed step with an empty image for the C5 witness. -/
def wBad : Step Unit :=
  { Serial := 3, Name := "", Image := "", Type' := .default, Content := none }

/-- A named step that fails validation, for the C5 witness. -/
def wNamedBad : Step Unit :=
  { Serial := 4, Name := "lint", Image := "", Type' := .default, Content := none }

/-! ## Log wrapper (src/unnamed/part_000, package wrappers) -/

/-- A lifecycle event emitted by the log wrapper around a step action. -/
inductive LogEvent where
  | started (fields : String)
  | errored (fields : String) (msg : String)
  | done (fields : String)
deriving DecidableEq

/-- `pipeline.ActionOpts`: the stdout and stderr sinks handed to a step
action, identified by name. -/
structure ActionOpts where
  Stdout : String
  Stderr : String
deriving DecidableEq

/-- `pipeline.Action`: performs the step's work given its opts; modelled by
the log events it emits and the error it returns. -/
def Action : Type := ActionOpts → List LogEvent × Option String

/-- `wrappers.LogWrapper`: carries the structured-field function
(`plog.DefaultFields` applied to the wrapper's common opts). -/
structure LogWrapper where
  Fields : Step Action → String

/-- The replacement action built in `LogWrapper.WrapStep` for a step whose
action is non-nil: log the start event, replace the stdout/stderr sinks by
stream-tagged logger writers, run the inner action, and log either the done
event or the error. -/
def wrapAction (fields : String) (action : Action) : Action :=
  fun opts =>
    let opts' : ActionOpts :=
      { opts with
        Stdout := "stream=stdout " ++ fields
        Stderr := "stream=stderr " ++ fields }
    let r := action opts'
    match r.2 with
    | some e => (LogEvent.started fields :: r.1 ++ [LogEvent.errored fields e], some e)
    | none => (LogEvent.started fields :: r.1 ++ [LogEvent.done fields], none)

/-- `LogWrapper.WrapStep`: a step with a nil action is skipped (`continue`)
and stays in the list unchanged; a step with an action has the action
replaced by `wrapAction` with the step captured by value. -/
def LogWrapper.WrapStep (l : LogWrapper) (steps : List (Step Action)) :
    List (Step Action) :=
  steps.map fun step =>
    match step.Content with
    | none => step
    | some action => { step with Content := some (wrapAction (l.Fields step) action) }

/-- `pipeline.StepWalkFunc` (the context argument is elided). -/
def StepWalkFunc : Type := List (Step Action) → Option String

/-- `LogWrapper.Wrap`: the produced visitor wraps the frontier's steps and
hands the whole frontier to the inner visitor. -/
def LogWrapper.Wrap (l : LogWrapper) (wf : StepWalkFunc) : StepWalkFunc :=
  fun steps => wf (l.WrapStep steps)

/-- Executing one step: a nil action emits no events and returns no error
(the image's default entrypoint runs outside the pipeline program); a present
action runs. -/
def runStep (s : Step Action) (opts : ActionOpts) : List LogEvent × Option String :=
  match s.Content with
  | none => ([], none)
  | some a => a opts

/-- A nil-action step for the C7 witness. -/
def wNilStep : Step Action :=
  { Serial := 7, Name := "noop", Image := "alpine", Type' := .default, Content := none }

/-- A log wrapper for the C7 witness. -/
def wLW : LogWrapper := { Fields := fun s => s.Name }

/-- Inner visitor for the C7 witness. -/
def wWF : StepWalkFunc := fun _ => none

/-- Opts for the C7 witness. -/
def wOpts : ActionOpts := { Stdout := "out", Stderr := "err" }

/-! ## plumbing.WaitGroup (src/unnamed/part_000, package plumbing) -/

/-- `plumbing.WaitGroup`: the configured timeout and the functions appended
by `Add`.  A `wgfunc` is `func() error` — it receives no arguments (and in
particular no context) — so each function is modelled by the error it
eventually returns. -/
structure WaitGroup where
  timeout : Nat
  funcs : List (Option String)
deriving DecidableEq

/-- Which of the three `select` branches in `WaitGroup.Wait` fires first:
`doneChan` was closed (all goroutines finished), the error of function `i`
arrived on `errChan` first, or the timer elapsed. -/
inductive WaitOutcome where
  | done
  | errAt (i : Nat)
  | timedOut
deriving DecidableEq

/-- Feasibility of a select branch: `doneChan` only closes when every
function returned nil (an erroring goroutine blocks sending on `errChan`
before calling `Done`), `errChan` only delivers the error of a function that
actually errored, and the timer can always fire first. -/
def feasibleOutcome (wg : WaitGroup) : WaitOutcome → Prop
  | .done => ∀ e ∈ wg.funcs, e = none
  | .errAt i => ∃ e, wg.funcs[i]? = some (some e)
  | .timedOut => True

/-- The value `WaitGroup.Wait` returns for each select branch: nil on the
done branch, the received error wrapped as
"error encountered in execution: ..." on the error branch, and "time out"
when the timer fires. -/
def waitResult (wg : WaitGroup) : WaitOutcome → Option String
  | .done => none
  | .errAt i =>
    match wg.funcs[i]? with
    | some (some e) => some ("error encountered in execution: " ++ e)
    | _ => none
  | .timedOut => some "time out"

/-- Every added function is started on its own goroutine and `v()` is invoked
unconditionally before any channel interaction; `Wait` holds no context and
no cancellation mechanism, so the set of invoked functions never depends on
the select outcome. -/
def waitInvoked (wg : WaitGroup) (_o : WaitOutcome) : List Nat :=
  List.range wg.funcs.length

/-- The group used by the C3 counterexample and witness: one erroring
function and one function that returns nil. -/
def wWG : WaitGroup := { timeout := 1000, funcs := [some "boom", none] }

/-! ## Docker backend (src/plumbing/pipeline/clients/docker) -/

/-- A docker-runtime operation performed during a run.  The removal
operations are part of the runtime vocabulary; whether `Done` ever performs
them is what claims C4 and C10 are about. -/
inductive DockerOp where
  | createNetwork
  | createVolume
  | createContainer
  | runContainer
  | walkSteps
  | removeNetwork
  | removeVolume
deriving DecidableEq

/-- The failure knobs of `Client.compilePipeline`, in program order: volume
creation, `DefaultMounts`, `os.Getwd`, container creation, and the compile
container run. -/
structure CompileOutcome where
  volumeErr : Option String
  mountsErr : Option String
  getwdErr : Option String
  createContainerErr : Option String
  runErr : Option String
deriving DecidableEq

/-- `Client.compilePipeline` (compile.go): create the named volume (failure
is wrapped as "error creating docker volume"), compute mounts and the
working directory, create the compile container, run it; every failure
returns immediately with no removal of the volume.  The result is the trace
of docker operations and the returned error. -/
def compilePipeline (o : CompileOutcome) : List DockerOp × Option String :=
  match o.volumeErr with
  | some e => ([DockerOp.createVolume], some ("error creating docker volume: " ++ e))
  | none =>
    match o.mountsErr with
    | some e => ([DockerOp.createVolume], some e)
    | none =>
      match o.getwdErr with
      | some e => ([DockerOp.createVolume], some e)
      | none =>
        match o.createContainerErr with
        | some e => ([DockerOp.createVolume, DockerOp.createContainer], some e)
        | none =>
          match o.runErr with
          | some e => ([DockerOp.createVolume, DockerOp.createContainer,
                        DockerOp.runContainer], some e)
          | none => ([DockerOp.createVolume, DockerOp.createContainer,
                      DockerOp.runContainer], none)

/-- `docker.Client.Done` (client.go): create the run's network — the error
from `CreateNetwork` is assigned to `err` but never inspected, because the
next use of `err` overwrites it with the compile result — then compile the
pipeline into the volume (a compile failure is wrapped as "failed to compile
the pipeline in docker. Error: ..." and returned), then walk the pipelines
and return the walk's result.  No path removes the network or the volume.
The first parameter is the discarded network-creation outcome. -/
def clientDone (_netErr : Option String) (co : CompileOutcome)
    (walkErr : Option String) : List DockerOp × Option String :=
  let compiled := compilePipeline co
  match compiled.2 with
  | some e => (DockerOp.createNetwork :: compiled.1,
               some ("failed to compile the pipeline in docker. Error: " ++ e))
  | none => (DockerOp.createNetwork :: compiled.1 ++ [DockerOp.walkSteps], walkErr)

/-- Modelled from the spec: `syncutil.PipelineWaitGroup.Wait` runs
`WalkSteps` for every added entry in parallel and joins with first-error
semantics: nil when every entry succeeds, otherwise the first error. -/
def pipelineWaitResult : List (Option String) → Option String
  | [] => none
  | some e :: _ => some e
  | none :: rest => pipelineWaitResult rest

/-- `Client.walkPipelines` on one frontier (client.go): a sub-pipeline is
dispatched on a detached goroutine and a failure is only logged as
"sub-pipeline failed"; every other pipeline is added to the pipeline wait
group, whose join result is returned.  The result is the list of logged
sub-pipeline failures and the returned error. -/
def walkPipelinesFrontier (run : Step Unit → Option String)
    (ps : List (Step Unit)) : List String × Option String :=
  ((ps.filter (fun p => decide (p.Type' = StepType.subPipeline))).filterMap
      (fun p => (run p).map (fun e => "sub-pipeline failed: " ++ e)),
   pipelineWaitResult
     ((ps.filter (fun p => decide (¬ p.Type' = StepType.subPipeline))).map run))

/-- A sub-pipeline node for the C6 witness. -/
def wSub : Step Unit :=
  { Serial := 1, Name := "sub", Image := "img", Type' := .subPipeline, Content := none }

/-- A top-level pipeline node for the C6 witness. -/
def wMain : Step Unit :=
  { Serial := 2, Name := "main", Image := "img", Type' := .default, Content := none }

/-- A run in which the sub-pipeline fails, for the C6 witness. -/
def wRunSubFails (p : Step Unit) : Option String :=
  if p.Serial = 1 then some "sub boom" else none

/-- A run in which everything succeeds, for the C6 witness. -/
def wRunAllOk (_p : Step Unit) : Option String := none

/-! ## Shipwright.Done and argument resolution -/

/-- Modelled from the spec: `Collection.BySerial` linearly locates the step
with the given serial across the collection; no match is an error. -/
def BySerial {α : Type} (steps : List (Step α)) (serial : Nat) : Option (Step α) :=
  steps.find? (fun s => decide (s.Serial = serial))

/-- The observable completion of `Shipwright.Done`: a panic (`Panicln`), or
the "execution completed" log with status error or success. -/
inductive DoneStatus where
  | panicked (msg : String)
  | completedError
  | completedSuccess
deriving DecidableEq

/-- `Shipwright.Done` (src/unnamed/part_002): when the `-step` flag is set,
the step is looked up with `BySerial`; a failed lookup calls
`logger.Panicln("could not find step", err)` instead of returning.  Otherwise
the client's Done runs over the (possibly restricted) collection and the
"execution completed" status — error or success — is logged. -/
def shipwrightDone {α : Type} (steps : List (Step α)) (stepFlag : Option Nat)
    (clientErr : Option String) : DoneStatus :=
  match stepFlag with
  | some n =>
    match BySerial steps n with
    | none => .panicked "could not find step"
    | some _ =>
      match clientErr with
      | some _ => .completedError
      | none => .completedSuccess
  | none =>
    match clientErr with
    | some _ => .completedError
    | none => .completedSuccess

/-- A step for the C9 witness. -/
def wStep9 : Step Unit :=
  { Serial := 2, Name := "s", Image := "img", Type' := .default, Content := none }

/-- `pipeline.Argument`: the enumerated argument taxonomy. -/
inductive Argument where
  | sourceFS
  | dockerSocketFS
  | remoteURL
  | commitRef
  | branch
  | workingDir
  | buildID
deriving DecidableEq

/-- `docker.KnownVolumes`: the known-value providers for file-system
arguments — the source tree resolves to "." (the current directory) and the
docker socket to /var/run/docker.sock; no other argument has a provider. -/
def KnownVolumes : Argument → Option String
  | .sourceFS => some "."
  | .dockerSocketFS => some "/var/run/docker.sock"
  | _ => none

/-- `docker.GetVolumeValue`: a user-supplied value from `args.ArgMap` wins
even over a known value; otherwise the known-value provider is consulted; an
argument with neither resolves to the empty string WITHOUT an error (the
code's trailing `return "", nil`). -/
def GetVolumeValue (argMap : Argument → Option String) (arg : Argument) :
    String × Option String :=
  match argMap arg with
  | some v => (v, none)
  | none =>
    match KnownVolumes arg with
    | some d => (d, none)
    | none => ("", none)

/-- User-supplied arguments for the C8 witness: only the docker socket is
overridden. -/
def wArgMap (a : Argument) : Option String :=
  if a = Argument.dockerSocketFS then some "/custom/docker.sock" else none

/-! ## Helper lemmas about the facade -/

theorem DefaultImage_ne_empty (version : String) : DefaultImage version ≠ "" := by
  intro h
  have hl : (DefaultImage version).length = 0 := by rw [h]; rfl
  rw [DefaultImage, String.length_append,
    show ("grafana/scribe:").length = 15 from rfl] at hl
  omega

theorem setupStep_image_ne_empty {α : Type} (version : String) (n : Nat) (s : Step α) :
    (setupStep version n s).Image ≠ "" := by
  show (if s.Image = "" then DefaultImage version else s.Image) ≠ ""
  split
  · exact DefaultImage_ne_empty version
  · assumption

theorem dockerValidate_setupStep {α : Type} (version : String) (n : Nat) (s : Step α) :
    dockerValidate (setupStep version n s) = none := by
  rw [dockerValidate, if_neg (setupStep_image_ne_empty version n s)]

theorem validateSteps_setupSteps {α : Type} (version : String) :
    ∀ (n : Nat) (ss : List (Step α)),
      validateSteps dockerValidate (setupSteps version n ss) = none := by
  intro n ss
  induction ss generalizing n with
  | nil => rfl
  | cons s rest ih =>
    rw [setupSteps, validateSteps, dockerValidate_setupStep]
    exact ih (n + 1)

theorem setupStep_serial {α : Type} (version : String) (n : Nat) (s : Step α) :
    (setupStep version n s).Serial = n := rfl

/-- Appending a single non-background step draws an edge from every member of
the attachment set to the step and makes the step the sole attachment. -/
theorem appendSteps_single_main {α : Type} (g : StepGraph α) (s : Step α)
    (h : s.Type' ≠ .background) :
    appendSteps g [s] =
      { nodes := g.nodes ++ [s]
        edges := g.edges ++ g.attach.map (fun l => (l, s.Serial))
        attach := [s.Serial] } := by
  rw [appendSteps]
  simp [List.filter, h]

/-- Appending a single background step draws only the edge root → step and
leaves the attachment set unchanged. -/
theorem appendSteps_single_bg {α : Type} (g : StepGraph α) (s : Step α)
    (h : s.Type' = .background) :
    appendSteps g [s] =
      { nodes := g.nodes ++ [s]
        edges := g.edges ++ [((0 : Nat), s.Serial)]
        attach := g.attach } := by
  rw [appendSteps]
  simp [List.filter, h]

/-! ## Claims C1 and C2 -/

/-- C1: a single call `Run(a,b,c,d)` appends the four steps as a sequential
chain.  The first step attaches to the current attachment set (for a fresh
pipeline that set is just the root, giving the edge root → a) and each later
step's sole predecessor is the previous one: the new edges are exactly
root → a, a → b, b → c, c → d, and the batch is never fanned out in parallel
from the current leaves. -/
theorem c1_run_sequential_chain (g : StepGraph Unit) (n : Nat) (v : String)
    (a b c d : Step Unit)
    (ha : a.Type' ≠ .background) (hb : b.Type' ≠ .background)
    (hc : c.Type' ≠ .background) (hd : d.Type' ≠ .background) :
    Run dockerValidate ⟨g, n, v⟩ [a, b, c, d] =
      some { graph := { nodes := g.nodes ++ setupSteps v n [a, b, c, d]
                        edges := g.edges ++ g.attach.map (fun l => (l, n))
                          ++ [(n, n + 1), (n + 1, n + 2), (n + 2, n + 3)]
                        attach := [n + 3] }
             n := n + 4
             version := v } := by
  have hfold :
      (setupSteps v n [a, b, c, d]).foldl (fun g s => appendSteps g [s]) g =
        { nodes := g.nodes ++ setupSteps v n [a, b, c, d]
          edges := g.edges ++ g.attach.map (fun l => (l, n))
            ++ [(n, n + 1), (n + 1, n + 2), (n + 2, n + 3)]
          attach := [n + 3] } := by
    have ha' : (setupStep v n a).Type' ≠ .background := ha
    have hb' : (setupStep v (n + 1) b).Type' ≠ .background := hb
    have hc' : (setupStep v (n + 2) c).Type' ≠ .background := hc
    have hd' : (setupStep v (n + 3) d).Type' ≠ .background := hd
    show appendSteps (appendSteps (appendSteps (appendSteps g
        [setupStep v n a]) [setupStep v (n + 1) b]) [setupStep v (n + 2) c])
        [setupStep v (n + 3) d] = _
    rw [appendSteps_single_main g _ ha', appendSteps_single_main _ _ hb',
        appendSteps_single_main _ _ hc', appendSteps_single_main _ _ hd']
    simp [setupSteps, setupStep_serial, List.append_assoc]
  simp only [Run, validateSteps_setupSteps, List.length_cons, List.length_nil]
  rw [hfold]

/-- Witness for C1: on a fresh pipeline, `Run` of four concrete steps with
counter 1 yields exactly the chain root → 1 → 2 → 3 → 4. -/
theorem c1_witness :
    Run dockerValidate ⟨emptyStepGraph Unit, 1, "v0"⟩
        [wStep "a", wStep "b", wStep "c", wStep "d"] =
      some { graph := { nodes := (emptyStepGraph Unit).nodes
                          ++ setupSteps "v0" 1 [wStep "a", wStep "b", wStep "c", wStep "d"]
                        edges := [(0, 1), (1, 2), (2, 3), (3, 4)]
                        attach := [4] }
             n := 5
             version := "v0" } := by
  have h := c1_run_sequential_chain (emptyStepGraph Unit) 1 "v0"
    (wStep "a") (wStep "b") (wStep "c") (wStep "d")
    (by decide) (by decide) (by decide) (by decide)
  simpa [emptyStepGraph] using h

/-- C2: `Background(x)` validates, sets the step's type to Background and
appends it as a detached branch: the only new edge is root(serial 0) → x, the
attachment set used by subsequent appends is unchanged, so later steps never
depend on x. -/
theorem c2_background_detached (sw : Shipwright Unit) (x : Step Unit) :
    Background dockerValidate sw [x] =
      some { graph := { nodes := sw.graph.nodes
                          ++ [backgroundOf (setupStep sw.version sw.n x)]
                        edges := sw.graph.edges ++ [((0 : Nat), sw.n)]
                        attach := sw.graph.attach }
             n := sw.n + 1
             version := sw.version } := by
  have happ := appendSteps_single_bg sw.graph
    (backgroundOf (setupStep sw.version sw.n x)) rfl
  simp only [Background, validateSteps_setupSteps, List.length_cons, List.length_nil]
  simp only [setupSteps, List.map_cons, List.map_nil]
  rw [happ]
  simp [backgroundOf, setupStep]

/-! ## Claim C5 -/

theorem validateSteps_append_ok {α : Type} (V : Step α → Option ValError)
    (pre rest : List (Step α))
    (hpre : ∀ t ∈ pre, V t = none ∨ V t = some .skip) :
    validateSteps V (pre ++ rest) = validateSteps V rest := by
  induction pre with
  | nil => rfl
  | cons t tl ih =>
    rw [List.cons_append, validateSteps]
    rcases hpre t (by simp) with h | h <;>
      · rw [h]
        exact ih (fun u hu => hpre u (by simp [hu]))

/-- C5: the container backend's validator rejects any step with an empty
image with "no image provided"; `validateSteps` lets every nil- or
skip-validated step through (the skip case is warned about only) and returns
the first hard validation error — whatever its message and whatever the
step's image — formatted as `[name: <name>, id: <serial>] <error>`, where the
name falls back to `unnamed-step-<serial>` exactly when the step is
unnamed. -/
theorem c5_validation_errors (V : Step Unit → Option ValError)
    (pre post : List (Step Unit)) (s t : Step Unit) (e : String)
    (hpre : ∀ u ∈ pre, V u = none ∨ V u = some .skip)
    (hs : V s = some (.msg e)) (himg : t.Image = "") :
    dockerValidate t = some (.msg "no image provided") ∧
    validateSteps V pre = none ∧
    validateSteps V (pre ++ s :: post) =
      some ("[name: "
        ++ (if s.Name = "" then "unnamed-step-" ++ toString s.Serial else s.Name)
        ++ ", id: " ++ toString s.Serial ++ "] " ++ e) := by
  refine ⟨by rw [dockerValidate, if_pos himg], ?_, ?_⟩
  · have h := validateSteps_append_ok V pre [] hpre
    simpa using h
  · rw [validateSteps_append_ok V pre (s :: post) hpre, validateSteps, hs]
    rfl

/-- Witness for C5: the concrete list [skip-validated step, named failing
step] produces exactly `[name: lint, id: 4] no image provided` while the
skip-validated step is accepted, and the unnamed empty-image step is
rejected by the docker validator. -/
theorem c5_witness :
    dockerValidate wBad = some (.msg "no image provided") ∧
    validateSteps wValidator [wSkip] = none ∧
    validateSteps wValidator ([wSkip] ++ wNamedBad :: []) =
      some ("[name: "
        ++ (if wNamedBad.Name = "" then "unnamed-step-" ++ toString wNamedBad.Serial
            else wNamedBad.Name)
        ++ ", id: " ++ toString wNamedBad.Serial ++ "] " ++ "no image provided") :=
  c5_validation_errors wValidator [wSkip] [] wNamedBad wBad "no image provided"
    (by decide) (by decide) rfl

/-! ## Claim C7 -/

/-- C7: for a step whose action is nil, the visitor produced by
`LogWrapper.Wrap` delivers the step to the inner visitor unchanged — same
step, action still nil, still present at its position in the frontier — and
running it emits no started/done/error events; only steps with a non-nil
action get their action replaced. -/
theorem c7_nil_action_untouched (l : LogWrapper) (steps : List (Step Action))
    (i : Nat) (s : Step Action) (wf : StepWalkFunc) (opts : ActionOpts)
    (hs : steps[i]? = some s) (hnil : s.Content = none) :
    (l.WrapStep steps).length = steps.length ∧
    (l.WrapStep steps)[i]? = some s ∧
    runStep s opts = ([], none) ∧
    l.Wrap wf steps = wf (l.WrapStep steps) := by
  refine ⟨by simp [LogWrapper.WrapStep], ?_, ?_, rfl⟩
  · rw [LogWrapper.WrapStep, List.getElem?_map, hs]
    simp [hnil]
  · rw [runStep, hnil]

/-- Witness for C7 at a concrete one-step frontier. -/
theorem c7_witness :
    (wLW.WrapStep [wNilStep]).length = [wNilStep].length ∧
    (wLW.WrapStep [wNilStep])[0]? = some wNilStep ∧
    runStep wNilStep wOpts = ([], none) ∧
    wLW.Wrap wWF [wNilStep] = wWF (wLW.WrapStep [wNilStep]) :=
  c7_nil_action_untouched wLW [wNilStep] 0 wNilStep wWF wOpts rfl rfl

/-! ## Claim C3 -/

/-- C3 counterexample: when the first function errors, `Wait` returns the
wrapped error, yet the remaining task (index 1) is still invoked and runs to
completion.  `WaitGroup.Wait` is `Wait()` — it takes no context and cancels
nothing — so the claim's "cancelling the remaining tasks via the provided
context" is false. -/
theorem c3_counterexample :
    waitResult wWG (.errAt 0) = some ("error encountered in execution: " ++ "boom") ∧
    waitInvoked wWG (.errAt 0) = [0, 1] := by
  refine ⟨rfl, ?_⟩
  decide

/-- C3 (amended): `Wait` starts all added functions in parallel and
(a) returns nil when the done branch fires (feasible only when all functions
returned nil), (b) returns a wrapped "error encountered in execution"
containing the first received error when a function errors, and (c) returns
the "time out" error when the configured timeout elapses first; it takes no
context, never cancels the remaining tasks, and every added function is
invoked regardless of the outcome. -/
theorem c3_wait_semantics (wg : WaitGroup) (i : Nat) (e : String)
    (h : wg.funcs[i]? = some (some e)) :
    feasibleOutcome wg (.errAt i) ∧
    waitResult wg .done = none ∧
    waitResult wg (.errAt i) = some ("error encountered in execution: " ++ e) ∧
    waitResult wg .timedOut = some "time out" ∧
    waitInvoked wg (.errAt i) = List.range wg.funcs.length := by
  refine ⟨⟨e, h⟩, rfl, ?_, rfl, rfl⟩
  simp [waitResult, h]

/-- Witness for C3 (amended) at the concrete group. -/
theorem c3_witness :
    feasibleOutcome wWG (.errAt 0) ∧
    waitResult wWG .done = none ∧
    waitResult wWG (.errAt 0) = some ("error encountered in execution: " ++ "boom") ∧
    waitResult wWG .timedOut = some "time out" ∧
    waitInvoked wWG (.errAt 0) = List.range wWG.funcs.length :=
  c3_wait_semantics wWG 0 "boom" rfl

/-! ## Claims C4 and C10 -/

/-- C4 counterexample: on the successful exit path the network and the
pipeline volume were created but neither is ever destroyed — `Done` has no
teardown on any path, contradicting "destroyed on every exit path". -/
theorem c4_counterexample :
    (clientDone none ⟨none, none, none, none, none⟩ none).2 = none ∧
    DockerOp.createNetwork ∈ (clientDone none ⟨none, none, none, none, none⟩ none).1 ∧
    DockerOp.createVolume ∈ (clientDone none ⟨none, none, none, none, none⟩ none).1 ∧
    DockerOp.removeNetwork ∉ (clientDone none ⟨none, none, none, none, none⟩ none).1 ∧
    DockerOp.removeVolume ∉ (clientDone none ⟨none, none, none, none, none⟩ none).1 := by
  decide

/-- C4 (amended): `Done` never destroys the network or the pipeline volume on
any exit path — success, compile failure, or walk failure; since no teardown
runs at all, a teardown failure can never replace the primary error. -/
theorem c4_no_teardown (netErr : Option String) (co : CompileOutcome)
    (walkErr : Option String) :
    DockerOp.removeNetwork ∉ (clientDone netErr co walkErr).1 ∧
    DockerOp.removeVolume ∉ (clientDone netErr co walkErr).1 := by
  rcases co with ⟨v, m, g, c, r⟩
  cases v <;> cases m <;> cases g <;> cases c <;> cases r <;>
    simp [clientDone, compilePipeline]

/-- C10: `Done` never inspects the error from creating the run's network —
the result is identical for any two network-creation outcomes — and
execution always proceeds to pipeline compilation (the volume creation is in
the trace even when network creation failed). -/
theorem c10_network_error_discarded (n1 n2 : Option String) (co : CompileOutcome)
    (walkErr : Option String) :
    clientDone n1 co walkErr = clientDone n2 co walkErr ∧
    DockerOp.createVolume ∈ (clientDone n1 co walkErr).1 := by
  refine ⟨rfl, ?_⟩
  rcases co with ⟨v, m, g, c, r⟩
  cases v <;> cases m <;> cases g <;> cases c <;> cases r <;>
    simp [clientDone, compilePipeline]

/-! ## Claim C6 -/

/-- C6: the error returned by a pipeline frontier never depends on the
sub-pipelines' outcomes — any two runs that agree on the non-sub-pipelines
return the same error — the returned error is exactly the wait-group join of
the non-sub-pipeline outcomes, and sub-pipeline failures appear only in the
log. -/
theorem c6_subpipeline_errors_logged_only (run run' : Step Unit → Option String)
    (ps : List (Step Unit))
    (h : ∀ p ∈ ps, p.Type' ≠ .subPipeline → run p = run' p) :
    (walkPipelinesFrontier run ps).2 = (walkPipelinesFrontier run' ps).2 ∧
    (walkPipelinesFrontier run ps).2 =
      pipelineWaitResult
        ((ps.filter (fun p => decide (¬ p.Type' = StepType.subPipeline))).map run) ∧
    (walkPipelinesFrontier run ps).1 =
      (ps.filter (fun p => decide (p.Type' = StepType.subPipeline))).filterMap
        (fun p => (run p).map (fun e => "sub-pipeline failed: " ++ e)) := by
  refine ⟨?_, rfl, rfl⟩
  have hmap : (ps.filter (fun p => decide (¬ p.Type' = StepType.subPipeline))).map run =
      (ps.filter (fun p => decide (¬ p.Type' = StepType.subPipeline))).map run' := by
    apply List.map_congr_left
    intro p hp
    have hmem := List.mem_filter.mp hp
    exact h p hmem.1 (by simpa using hmem.2)
  exact congrArg pipelineWaitResult hmap

/-- Witness for C6: the frontier [sub, main] returns the same (nil) error
whether or not the sub-pipeline fails, and the failure shows up only in the
log. -/
theorem c6_witness :
    (walkPipelinesFrontier wRunSubFails [wSub, wMain]).2 =
      (walkPipelinesFrontier wRunAllOk [wSub, wMain]).2 ∧
    (walkPipelinesFrontier wRunSubFails [wSub, wMain]).2 =
      pipelineWaitResult
        (([wSub, wMain].filter (fun p => decide (¬ p.Type' = StepType.subPipeline))).map
          wRunSubFails) ∧
    (walkPipelinesFrontier wRunSubFails [wSub, wMain]).1 =
      ([wSub, wMain].filter (fun p => decide (p.Type' = StepType.subPipeline))).filterMap
        (fun p => (wRunSubFails p).map (fun e => "sub-pipeline failed: " ++ e)) :=
  c6_subpipeline_errors_logged_only wRunSubFails wRunAllOk [wSub, wMain] (by decide)

/-! ## Claim C9 -/

/-- C9: with the `-step` flag set to a serial no step of the collection
carries, the facade's Done panics with "could not find step" instead of
completing with an error or success status. -/
theorem c9_done_panics_on_missing_step {α : Type} (steps : List (Step α))
    (n : Nat) (clientErr : Option String)
    (h : ∀ s ∈ steps, s.Serial ≠ n) :
    shipwrightDone steps (some n) clientErr = .panicked "could not find step" := by
  have hfind : BySerial steps n = none := by
    rw [BySerial, List.find?_eq_none]
    intro s hs
    simpa using h s hs
  simp [shipwrightDone, hfind]

/-- Witness for C9: a collection holding only serial 2, restricted to
serial 5, panics. -/
theorem c9_witness :
    shipwrightDone [wStep9] (some 5) (none : Option String) =
      .panicked "could not find step" :=
  c9_done_panics_on_missing_step [wStep9] 5 none (by decide)

/-! ## Claim C8 -/

/-- C8 counterexample: an argument with neither a user-supplied value nor a
known provider resolves to `("", nil)` — no error is returned, refuting "an
unresolved required argument ... is an error". -/
theorem c8_counterexample :
    GetVolumeValue (fun _ => none) Argument.remoteURL = ("", none) := rfl

/-- C8 (amended): resolution returns the user-supplied value when one was
provided for the argument's key, otherwise the known-value provider's
default (SourceFS → "." i.e. the current directory, DockerSocketFS →
/var/run/docker.sock); an argument with neither resolves to the empty string
with no error. -/
theorem c8_volume_resolution (u u' : Argument → Option String)
    (arg arg' : Argument) (v : String)
    (h1 : u arg = some v) (h2 : u' arg' = none) :
    GetVolumeValue u arg = (v, none) ∧
    GetVolumeValue u' arg' = ((KnownVolumes arg').getD "", none) ∧
    KnownVolumes Argument.sourceFS = some "." ∧
    KnownVolumes Argument.dockerSocketFS = some "/var/run/docker.sock" := by
  refine ⟨?_, ?_, rfl, rfl⟩
  · simp [GetVolumeValue, h1]
  · simp only [GetVolumeValue, h2]
    cases KnownVolumes arg' <;> simp

/-- Witness for C8 (amended): a supplied docker-socket value overrides the
provider, while an unsupplied source argument falls back to its known
value. -/
theorem c8_witness :
    GetVolumeValue wArgMap Argument.dockerSocketFS = ("/custom/docker.sock", none) ∧
    GetVolumeValue wArgMap Argument.sourceFS =
      ((KnownVolumes Argument.sourceFS).getD "", none) ∧
    KnownVolumes Argument.sourceFS = some "." ∧
    KnownVolumes Argument.dockerSocketFS = some "/var/run/docker.sock" :=
  c8_volume_resolution wArgMap wArgMap Argument.dockerSocketFS Argument.sourceFS
    "/custom/docker.sock" rfl rfl

end Scribe
